import Mathlib

/-!
# Verification of the real-time voice/text chat core

Shallow embedding of the chat page component (`ChatPage`): the base64 codec
utilities, the float→PCM16 conversion, the voice-activity gate, the audio
capture buffering and flushing, the voice start/stop procedures, the server
connection procedure, the text send procedure, and the inbound stream event
handler.  Byte values are `Nat` (< 256), 16-bit samples are `Int`, float
samples are `ℚ` (exact rationals standing in for the IEEE doubles of the
source; no claim here depends on rounding).  React state updates
(`setXxx`) and ref writes are modelled as immediate field updates threaded
through explicit state passing, in the program order of the source.
-/

/-! ## Base64 codec (`base64ToArray` / `arrayBufferToBase64`)

The source builds a latin-1 binary string byte-by-byte with
`String.fromCharCode` / `charCodeAt` (the identity embedding of byte values
into code points below 256) and delegates to the platform `btoa` / `atob`,
i.e. standard base64 with `=` padding.  We model the byte string as
`List Nat` and `btoa`/`atob` as `b64encode`/`b64decode` over the standard
alphabet. -/

def b64alphabet : List Char :=
  "ABCDEFGHIJKLMNOPQRSTUVWXYZabcdefghijklmnopqrstuvwxyz0123456789+/".toList

def b64char (n : Nat) : Char := b64alphabet.getD n '?'

def b64index (c : Char) : Option Nat := b64alphabet.findIdx? (fun x => x == c)

/-- Encoding: 3 bytes become 4 alphabet characters; a 1- or 2-byte tail is
padded with `=`.  Sextets are expressed with `/` and `%` (e.g. `a / 4` is
`a >>> 2` for `a < 256`). -/
def b64encode : List Nat → List Char
  | [] => []
  | [a] => [b64char (a / 4), b64char (a % 4 * 16), '=', '=']
  | [a, b] => [b64char (a / 4), b64char (a % 4 * 16 + b / 16), b64char (b % 16 * 4), '=']
  | a :: b :: c :: rest =>
      b64char (a / 4) :: b64char (a % 4 * 16 + b / 16) ::
        b64char (b % 16 * 4 + c / 64) :: b64char (c % 64) :: b64encode rest

/-- Decoding of padded base64, as `atob` performs on the canonical strings
produced by `btoa`; any other shape yields `none` (the `DecodeError` path:
`atob` throws). Leftover bits of a padded tail are discarded, as in
forgiving-base64. -/
def b64decode : List Char → Option (List Nat)
  | [] => some []
  | c1 :: c2 :: c3 :: c4 :: rest =>
      match b64index c1, b64index c2, b64index c3, b64index c4 with
      | some s1, some s2, some s3, some s4 =>
          (b64decode rest).map
            (fun tail =>
              (s1 * 4 + s2 / 16) :: (s2 % 16 * 16 + s3 / 4) :: (s3 % 4 * 64 + s4) :: tail)
      | some s1, some s2, some s3, none =>
          if c4 = '=' ∧ rest = [] then
            some [s1 * 4 + s2 / 16, s2 % 16 * 16 + s3 / 4]
          else none
      | some s1, some s2, none, none =>
          if c3 = '=' ∧ c4 = '=' ∧ rest = [] then some [s1 * 4 + s2 / 16]
          else none
      | _, _, _, _ => none
  | _ => none

/-- Model of `arrayBufferToBase64` (the `base64FromBytes` of the spec): total. -/
def arrayBufferToBase64 (buffer : List Nat) : List Char := b64encode buffer

/-- Model of `base64ToArray` (the `bytesFromBase64` of the spec): `none` models the
exception `atob` raises on malformed input. -/
def base64ToArray (base64 : List Char) : Option (List Nat) := b64decode base64

/-! ## Float → PCM16 conversion (`convertFloat32ToPCM`) -/

/-- Truncation toward zero, as the `Int16Array` element conversion
(`ToInt16`) performs on its numeric argument. -/
def truncToInt (q : ℚ) : Int := if 0 ≤ q then ⌊q⌋ else ⌈q⌉

/-- Narrowing to 16 bits: reduce modulo `2^16` into the signed range, the final
step of `ToInt16`. -/
def toInt16 (n : Int) : Int := (n + 32768) % 65536 - 32768

/-- Model of `convertFloat32ToPCM`: each sample is scaled by `0x7fff = 32767`,
clamped with `Math.max (-32768) (Math.min 32767 _)`, then stored into an
`Int16Array` slot (truncation plus 16-bit narrowing). -/
def convertFloat32ToPCM (inputData : List ℚ) : List Int :=
  inputData.map (fun x => toInt16 (truncToInt (max (-32768) (min 32767 (x * 32767)))))

/-! ## Voice activity gate (inside `audioRecorderHandler`) -/

/-- Sum of squared samples of a PCM16 frame. -/
def sumSquares (samples : List Int) : Int := (samples.map (fun s => s * s)).sum

/-- The gate of the handler: the source computes
`rms = sqrt(sumSquares / length)` and tests `rms > 100`; since `sqrt` is
monotone this is `sumSquares > 100^2 * length`, which is what we state (for
an empty frame the source's `0/0` is NaN and `NaN > 100` is `false`, and
here `0 < 0` is `false` as well). -/
def isSpeech (samples : List Int) : Bool :=
  decide (10000 * (samples.length : Int) < sumSquares samples)

/-! ## Transcript and session state -/

/-- Byte serialization of a PCM16 frame (the `Uint8Array` view of the
`Int16Array` buffer, little-endian). -/
def pcmBytes (samples : List Int) : List Nat :=
  (samples.map (fun s => [((s % 65536).toNat) % 256, ((s % 65536).toNat) / 256])).flatten

inductive Sender
  | user
  | ai
deriving DecidableEq, Repr

/-- A transcript `Message`.  The source's `id` strings (`Date.now()`,
`Math.random().toString(36)`) are modelled by a monotone fresh-id supply
(`nextId` below); the wall-clock `timestamp` field and the never-assigned
optional `type` field carry no information used by any claim and are
omitted. -/
structure Message where
  id : Nat
  content : String
  sender : Sender
deriving DecidableEq, Repr

/-- Observation record for one outbound audio POST (`fetch` with
`mime_type: "audio/pcm"`): the payload and the value of the relevant flags
at the moment the request is issued. -/
structure SentRecord where
  bytes : List Nat
  connectedAtSend : Bool
  recordingAtSend : Bool
  modeAudioAtSend : Bool
deriving DecidableEq, Repr

/-- The parsed JSON payload of one inbound stream event, with the four
optional fields the handler inspects (`data.turn_complete`,
`data.interrupted`, `data.mime_type`, `data.data`). -/
structure ServerData where
  turn_complete : Option Bool
  interrupted : Option Bool
  mime_type : Option String
  data : Option String
deriving DecidableEq, Repr

/-- The component state: the `useState` variables, the refs, and two
observation logs (`sentAudio`, `connects`).  `eventSource` is the open
stream and its `is_audio` mode (`none` = closed/absent); `playbackQueue`
is the player worklet's queue of pending PCM buffers (the worklet script
itself is not part of the sources; its queue semantics are modelled from
the spec, see `audioStep` and `handleServerData`); `bufferTimer` is
whether the 200 ms flush interval is armed; `nextId` and `nextHandle` are
fresh-id supplies for message ids and worklet/context handles. -/
structure ClientState where
  messages : List Message
  inputValue : String
  isConnected : Bool
  isVoiceEnabled : Bool
  isRecording : Bool
  isMuted : Bool
  isTyping : Bool
  currentMessageId : Option Nat
  audioBuffer : List (List Nat)
  bufferTimer : Bool
  playerHandle : Option Nat
  recorderHandle : Option Nat
  micStream : Bool
  eventSource : Option Bool
  playbackQueue : List (List Nat)
  nextId : Nat
  nextHandle : Nat
  sentAudio : List SentRecord
  connects : List Bool
deriving DecidableEq, Repr

def greetingText : String :=
  "Hello! I\x27m your SkillBridge AI assistant. I\x27m here to help you with skill development, mentorship, learning paths, and connecting with the right opportunities. How can I assist you today?"

def voiceStartText : String :=
  "🎤 Voice conversation started - Speak naturally, AI is listening..."

def voiceFailText : String :=
  "❌ Failed to start voice conversation. Please check microphone permissions and try again."

def voiceStopText : String :=
  "🔴 Voice conversation stopped - Switched to text mode"

def serverUnreachableText : String :=
  "Server not reachable. Make sure your Python server is running on http://127.0.0.1:8000"

def connectFailText : String :=
  "❌ Failed to connect to server. " ++ serverUnreachableText

def sendFailText : String :=
  "❌ Failed to send message. Please try again."

/-- The `useState`/`useRef` initializers of the component: one greeting
message with id `"1"`, everything else empty/false/null. -/
def initialState : ClientState where
  messages := [{ id := 1, content := greetingText, sender := Sender.ai }]
  inputValue := ""
  isConnected := false
  isVoiceEnabled := false
  isRecording := false
  isMuted := false
  isTyping := false
  currentMessageId := none
  audioBuffer := []
  bufferTimer := false
  playerHandle := none
  recorderHandle := none
  micStream := false
  eventSource := none
  playbackQueue := []
  nextId := 2
  nextHandle := 0
  sentAudio := []
  connects := []

/-! ## Capture pipeline: handler and flush -/

/-- Model of `audioRecorderHandler`: voice-activity gate, then append the frame's
bytes to the pending buffer and arm the 200 ms flush interval if it is not
armed; a gated (silent) frame leaves everything untouched. -/
def audioRecorderHandler (pcmSamples : List Int) (s : ClientState) : ClientState :=
  if isSpeech pcmSamples then
    let s1 := { s with audioBuffer := s.audioBuffer ++ [pcmBytes pcmSamples] }
    if s1.bufferTimer then s1 else { s1 with bufferTimer := true }
  else s

/-- Feeding a sequence of raw capture frames through the handler. -/
def processFrames (frames : List (List Int)) (s : ClientState) : ClientState :=
  frames.foldl (fun st f => audioRecorderHandler f st) s

/-- Model of `sendBufferedAudio`: return early on an empty chunk list; otherwise
concatenate the chunks, POST the combined buffer when connected and
non-empty (recorded in `sentAudio` together with the flags at that
moment; response/network errors are logged and ignored), and clear the
buffer. -/
def sendBufferedAudio (s : ClientState) : ClientState :=
  if s.audioBuffer = [] then s
  else
    let combined := s.audioBuffer.flatten
    let s1 :=
      if s.isConnected = true ∧ combined ≠ [] then
        { s with sentAudio := s.sentAudio ++
            [{ bytes := combined
               connectedAtSend := s.isConnected
               recordingAtSend := s.isRecording
               modeAudioAtSend := decide (s.eventSource = some true) }] }
      else s
    { s1 with audioBuffer := [] }

/-! ## Connection manager -/

/-- Model of `connectToServer(audioMode)`: close any existing stream, run the
health check (its outcome is the `healthy` parameter), and on success open
a new `EventSource` in the requested mode (logged in `connects`); on
failure set disconnected and append the failure notice.  The `onopen`
callback (which sets `isConnected` and, in text mode, appends a connected
notice) is a later asynchronous event and is not folded into this step. -/
def connectToServer (healthy : Bool) (audioMode : Bool) (s : ClientState) : ClientState :=
  let s0 := { s with eventSource := none }
  if healthy then
    { s0 with eventSource := some audioMode, connects := s0.connects ++ [audioMode] }
  else
    { s0 with
      isConnected := false
      messages := s0.messages ++ [{ id := s0.nextId, content := connectFailText, sender := Sender.ai }]
      nextId := s0.nextId + 1 }

/-! ## Voice start / stop -/

/-- Model of `startVoiceConversation`: on the success path (`ok = true`) start a
fresh player worklet and a fresh recorder worklet + mic stream (new
handles from the supply, the new player starts with an empty queue), set
the voice/recording flags, reconnect in audio mode, and append the
voice-started notice.  If pipeline acquisition fails (`ok = false`) the
catch branch only appends the failure notice. -/
def startVoiceConversation (ok healthy : Bool) (s : ClientState) : ClientState :=
  if ok then
    let s1 := { s with
      playerHandle := some s.nextHandle
      playbackQueue := []
      recorderHandle := some (s.nextHandle + 1)
      micStream := true
      nextHandle := s.nextHandle + 2 }
    let s2 := { s1 with isVoiceEnabled := true, isRecording := true }
    let s3 := connectToServer healthy true s2
    { s3 with
      messages := s3.messages ++ [{ id := s3.nextId, content := voiceStartText, sender := Sender.ai }]
      nextId := s3.nextId + 1 }
  else
    { s with
      messages := s.messages ++ [{ id := s.nextId, content := voiceFailText, sender := Sender.ai }]
      nextId := s.nextId + 1 }

/-- Model of `stopVoiceConversation`: clear the recording/voice flags, disarm the
flush timer, flush any remaining buffered audio through
`sendBufferedAudio`, release the mic stream, close both audio contexts and
null the worklet refs (dropping the player's queue), reconnect in text
mode, and append the voice-stopped notice. -/
def stopVoiceConversation (healthy : Bool) (s : ClientState) : ClientState :=
  let s1 := { s with isRecording := false, isVoiceEnabled := false, bufferTimer := false }
  let s2 := if s1.audioBuffer ≠ [] then sendBufferedAudio s1 else s1
  let s3 := { s2 with
    micStream := false
    playerHandle := none
    recorderHandle := none
    playbackQueue := [] }
  let s4 := connectToServer healthy false s3
  { s4 with
    messages := s4.messages ++ [{ id := s4.nextId, content := voiceStopText, sender := Sender.ai }]
    nextId := s4.nextId + 1 }

/-! ## Text send -/

/-- ASCII whitespace, the fragment of the JS `trim` character class the
claims exercise. -/
def isWhitespaceChar (c : Char) : Bool :=
  c = ' ' ∨ c = '\t' ∨ c = '\n' ∨ c = '\r'

/-- Model of `inputValue.trim()`: strip leading and trailing whitespace (structural
model of the JS string `trim`). -/
def strTrim (t : String) : String :=
  String.mk (((t.data.dropWhile isWhitespaceChar).reverse.dropWhile isWhitespaceChar).reverse)

/-- Model of `sendMessage`: guard on a non-blank input and an open connection,
append the user message optimistically, then POST it (outcome `ok`);
on failure append the send-failure notice, on success clear the input. -/
def sendMessage (ok : Bool) (s : ClientState) : ClientState :=
  if strTrim s.inputValue = "" ∨ s.isConnected = false then s
  else
    let s1 : ClientState := { s with
      messages := s.messages ++ [{ id := s.nextId, content := s.inputValue, sender := Sender.user }]
      nextId := s.nextId + 1 }
    if ok then { s1 with inputValue := "" }
    else
      { s1 with
        messages := s1.messages ++ [{ id := s1.nextId, content := sendFailText, sender := Sender.ai }]
        nextId := s1.nextId + 1 }

/-! ## Inbound stream dispatch (`eventSource.onmessage`)

The handler body runs inside one `try`/`catch`: a `JSON.parse` failure or a
`base64ToArray` failure is caught, logged, and the event is dropped.  We
model the raw event as `Option ServerData` (`none` = the payload is not
valid JSON) and the fallible body as an `Option ClientState`. -/

/-- The audio-response branch: on `mime_type = "audio/pcm"` with a truthy
`data` field, a live player node and not muted, decode the base64 payload
(`none` models the thrown `DecodeError`) and post the buffer to the player
worklet.  Modelled from the spec: the player worklet script
(`pcm-player-processor.js`) is not among the sources; per §4.4 a posted
buffer is enqueued FIFO on the playback queue. -/
def audioStep (d : ServerData) (s : ClientState) : Option ClientState :=
  match d.data with
  | some t =>
      if d.mime_type = some "audio/pcm" ∧ t ≠ "" ∧ s.playerHandle.isSome ∧ s.isMuted = false then
        (base64ToArray t.toList).map
          (fun bytes => { s with playbackQueue := s.playbackQueue ++ [bytes] })
      else some s
  | none => some s

/-- The text-response branch: on `mime_type = "text/plain"` with a truthy
`data` field, set `isTyping` and either open a new agent message (no
current message id) or append the delta to every message whose id equals
the current one. -/
def textStep (d : ServerData) (s : ClientState) : ClientState :=
  match d.data with
  | some t =>
      if d.mime_type = some "text/plain" ∧ t ≠ "" then
        let s1 := { s with isTyping := true }
        match s1.currentMessageId with
        | none =>
            { s1 with
              currentMessageId := some s1.nextId
              messages := s1.messages ++ [{ id := s1.nextId, content := t, sender := Sender.ai }]
              nextId := s1.nextId + 1 }
        | some cid =>
            { s1 with
              messages := s1.messages.map
                (fun m => if m.id = cid then { m with content := m.content ++ t } else m) }
      else s
  | none => s

/-- The handler body on a successfully parsed payload: turn completion and
interruption first (each with an early return), then the audio branch,
then the text branch.  On `interrupted`, the `endOfAudio` command is
posted to the player worklet when one is live.  Modelled from the spec:
the worklet script is not among the sources; per §4.4 `interrupt()`
discards all queued-but-unplayed audio and halts the current buffer, i.e.
the playback queue becomes empty. -/
def handleServerData (d : ServerData) (s : ClientState) : Option ClientState :=
  if d.turn_complete = some true then
    some { s with isTyping := false, currentMessageId := none }
  else if d.interrupted = some true then
    let s1 := { s with isTyping := false }
    some (if s1.playerHandle.isSome then { s1 with playbackQueue := [] } else s1)
  else
    (audioStep d s).map (textStep d)

/-- Model of `eventSource.onmessage`: parse, dispatch, and catch — a failure inside
the body leaves the state exactly as it was (the event is dropped, the
stream and connection stay up). -/
def onmessage (raw : Option ServerData) (s : ClientState) : ClientState :=
  match raw with
  | none => s
  | some d => (handleServerData d s).getD s

/-- Processing a sequence of inbound events in arrival order. -/
def processEvents (events : List (Option ServerData)) (s : ClientState) : ClientState :=
  events.foldl (fun st e => onmessage e st) s

/-- Inbound event payload shapes, as produced by the server (§6). -/
def textDeltaData (t : String) : ServerData :=
  { turn_complete := none, interrupted := none, mime_type := some "text/plain", data := some t }

def turnCompleteData : ServerData :=
  { turn_complete := some true, interrupted := none, mime_type := none, data := none }

def interruptedData : ServerData :=
  { turn_complete := none, interrupted := some true, mime_type := none, data := none }

def audioChunkData (b64 : String) : ServerData :=
  { turn_complete := none, interrupted := none, mime_type := some "audio/pcm", data := some b64 }

/-! ## Concrete states used by counterexamples and witnesses -/

/-- A live connected audio-mode session with one chunk pending in the
capture buffer and the flush timer armed. -/
def c1State : ClientState :=
  { initialState with
    isConnected := true
    isVoiceEnabled := true
    isRecording := true
    eventSource := some true
    playerHandle := some 0
    recorderHandle := some 1
    micStream := true
    nextHandle := 2
    audioBuffer := [[1, 2]]
    bufferTimer := true
    connects := [false, true] }

/-- A live voice session mid-reply: player and recorder running, two
buffers queued for playback, an agent message currently open. -/
def c3State : ClientState :=
  { initialState with
    isConnected := true
    eventSource := some true
    isVoiceEnabled := true
    isRecording := true
    playerHandle := some 0
    recorderHandle := some 1
    micStream := true
    nextHandle := 2
    playbackQueue := [[1, 2], [3]]
    currentMessageId := some 1
    isTyping := true }

/-- A session already in audio mode with both pipelines live: the state
reached after one successful voice start. -/
def c7State : ClientState :=
  { initialState with
    isConnected := true
    isVoiceEnabled := true
    isRecording := true
    eventSource := some true
    playerHandle := some 0
    recorderHandle := some 1
    micStream := true
    nextHandle := 2
    connects := [false, true] }

/-- A text-mode session that never started voice: all pipeline state at
its initial values, connection open in text mode. -/
def c8State : ClientState :=
  { initialState with isConnected := true, eventSource := some false, connects := [false] }

/-- A connected text-mode session with `"hi"` typed into the input box. -/
def c9State : ClientState :=
  { initialState with
    isConnected := true, eventSource := some false, connects := [false], inputValue := "hi" }

/-- An unrecognized-shape payload used by the C10 witness. -/
def c10Data : ServerData :=
  { turn_complete := some false, interrupted := none
    mime_type := some "application/json", data := some "x" }

/-! ## Claims -/

theorem b64index_b64char : ∀ n, n < 64 → b64index (b64char n) = some n := by decide

theorem b64index_pad : b64index '=' = none := by decide

theorem b64decode_b64encode : ∀ bs : List Nat, (∀ x ∈ bs, x < 256) →
    b64decode (b64encode bs) = some bs
  | [], _ => rfl
  | [a], h => by
      have ha : a < 256 := h a (by simp)
      have h1 := b64index_b64char (a / 4) (by omega)
      have h2 := b64index_b64char (a % 4 * 16) (by omega)
      simp only [b64encode, b64decode, h1, h2, b64index_pad]
      simp only [and_self, if_true, Option.some.injEq, List.cons.injEq, and_true]
      omega
  | [a, b], h => by
      have ha : a < 256 := h a (by simp)
      have hb : b < 256 := h b (by simp)
      have h1 := b64index_b64char (a / 4) (by omega)
      have h2 := b64index_b64char (a % 4 * 16 + b / 16) (by omega)
      have h3 := b64index_b64char (b % 16 * 4) (by omega)
      simp only [b64encode, b64decode, h1, h2, h3, b64index_pad]
      simp only [and_self, if_true, Option.some.injEq, List.cons.injEq, and_true]
      constructor <;> omega
  | a :: b :: c :: rest, h => by
      have ha : a < 256 := h a (by simp)
      have hb : b < 256 := h b (by simp)
      have hc : c < 256 := h c (by simp)
      have ih := b64decode_b64encode rest (fun x hx => h x (by simp [hx]))
      have h1 := b64index_b64char (a / 4) (by omega)
      have h2 := b64index_b64char (a % 4 * 16 + b / 16) (by omega)
      have h3 := b64index_b64char (b % 16 * 4 + c / 64) (by omega)
      have h4 := b64index_b64char (c % 64) (by omega)
      simp only [b64encode, b64decode, h1, h2, h3, h4, ih, Option.map_some',
        Option.some.injEq, List.cons.injEq, and_true]
      omega


/-- C4: for all byte sequences `b`, decoding the base64 encoding of `b`
yields `b` exactly: `bytesFromBase64 (base64FromBytes b) = b`, where
`base64FromBytes` is `arrayBufferToBase64` and `bytesFromBase64` is
`base64ToArray`. -/
theorem c4_base64_roundtrip (b : List Nat) (h : ∀ x ∈ b, x < 256) :
    base64ToArray (arrayBufferToBase64 b) = some b :=
  b64decode_b64encode b h

theorem c4_base64_roundtrip_witness :
    base64ToArray (arrayBufferToBase64 [0, 77, 128, 255, 1]) = some [0, 77, 128, 255, 1] :=
  c4_base64_roundtrip [0, 77, 128, 255, 1] (by decide)

/-- C5: for every input array of float samples (of any magnitude), every
output sample of `convertFloat32ToPCM` lies in `[-32768, 32767]`: the
sample is scaled by 32767 and clamped to that range before the 16-bit
narrowing, so no overflow wraparound occurs. -/
theorem c5_pcm16_range (samples : List ℚ) (y : Int)
    (hy : y ∈ convertFloat32ToPCM samples) :
    -32768 ≤ y ∧ y ≤ 32767 := by
  simp only [convertFloat32ToPCM, List.mem_map] at hy
  obtain ⟨x, -, rfl⟩ := hy
  set q : ℚ := max (-32768) (min 32767 (x * 32767)) with hq
  have h1 : ((-32768 : Int) : ℚ) ≤ q := by
    rw [hq]; exact le_trans (by norm_num) (le_max_left _ _)
  have h2 : q ≤ ((32767 : Int) : ℚ) := by
    rw [hq]; exact max_le (by norm_num) (le_trans (min_le_left _ _) (by norm_num))
  have hfl : (-32768 : Int) ≤ ⌊q⌋ ∧ ⌊q⌋ ≤ 32767 := by
    refine ⟨?_, ?_⟩
    · have := Int.floor_mono h1; rwa [Int.floor_intCast] at this
    · have := Int.floor_mono h2; rwa [Int.floor_intCast] at this
  have hcl : (-32768 : Int) ≤ ⌈q⌉ ∧ ⌈q⌉ ≤ 32767 := by
    refine ⟨?_, ?_⟩
    · have := Int.ceil_mono h1; rwa [Int.ceil_intCast] at this
    · have := Int.ceil_mono h2; rwa [Int.ceil_intCast] at this
  unfold truncToInt toInt16
  split <;> omega

/-- Concrete evaluation of the conversion on the out-of-range sample `2`. -/
theorem convertFloat32ToPCM_two : convertFloat32ToPCM [2] = [32767] := by
  have hmin : min (32767 : ℚ) (2 * 32767) = 32767 := min_eq_left (by norm_num)
  have hmax : max (-32768 : ℚ) (32767 : ℚ) = 32767 := max_eq_right (by norm_num)
  have hfl : truncToInt (32767 : ℚ) = 32767 := by
    rw [truncToInt, if_pos (by norm_num),
      show ((32767 : ℚ)) = ((32767 : Int) : ℚ) by norm_num, Int.floor_intCast]
  simp only [convertFloat32ToPCM, List.map_cons, List.map_nil, hmin, hmax, hfl, toInt16]
  decide

theorem c5_pcm16_range_witness : (-32768 : Int) ≤ 32767 ∧ (32767 : Int) ≤ 32767 :=
  c5_pcm16_range [2] 32767 (by rw [convertFloat32ToPCM_two]; exact List.mem_singleton.mpr rfl)

/-- Silent frames leave the handler state untouched, so feeding any
all-silent sequence through the handler is the identity. -/
theorem processFrames_silent (s : ClientState) :
    ∀ frames : List (List Int), (∀ g ∈ frames, isSpeech g = false) →
      processFrames frames s = s
  | [], _ => rfl
  | g :: gs, h => by
      have hg : isSpeech g = false := h g (by simp)
      have hgs : ∀ x ∈ gs, isSpeech x = false := fun x hx => h x (by simp [hx])
      simp only [processFrames, List.foldl_cons]
      rw [show audioRecorderHandler g s = s from by simp [audioRecorderHandler, hg]]
      exact processFrames_silent s gs hgs

/-- C6: a PCM16 frame whose RMS does not exceed the threshold (100 on the
16-bit scale) is never appended to the pending buffer and never arms the
flush timer; across any prefix of a sequence of such silent frames the
state — in particular an initially empty buffer — is unchanged. -/
theorem c6_silent_frames (s : ClientState) (f : List Int)
    (frames pre suf : List (List Int))
    (hf : isSpeech f = false)
    (hsil : ∀ g ∈ frames, isSpeech g = false)
    (hsplit : frames = pre ++ suf)
    (hbuf : s.audioBuffer = []) :
    audioRecorderHandler f s = s ∧
    processFrames pre s = s ∧
    (processFrames pre s).audioBuffer = [] ∧
    (processFrames pre s).bufferTimer = s.bufferTimer := by
  have hpre : ∀ g ∈ pre, isSpeech g = false := by
    intro g hg
    exact hsil g (hsplit ▸ List.mem_append_left suf hg)
  have hid := processFrames_silent s pre hpre
  refine ⟨by simp [audioRecorderHandler, hf], hid, ?_, ?_⟩ <;> rw [hid]
  exact hbuf

theorem c6_silent_frames_witness :
    audioRecorderHandler [99, 99] initialState = initialState ∧
    processFrames [[99, 99], [0, 1]] initialState = initialState ∧
    (processFrames [[99, 99], [0, 1]] initialState).audioBuffer = [] ∧
    (processFrames [[99, 99], [0, 1]] initialState).bufferTimer = initialState.bufferTimer :=
  c6_silent_frames initialState [99, 99] [[99, 99], [0, 1], [2, 2]] [[99, 99], [0, 1]] [[2, 2]]
    (by decide) (by decide) rfl rfl

/-- Appending a delta to messages whose ids all differ from the current id
changes nothing. -/
theorem map_appendContent_of_ne (l : List Message) (cid : Nat) (t : String)
    (h : ∀ m ∈ l, m.id ≠ cid) :
    l.map (fun m => if m.id = cid then { m with content := m.content ++ t } else m) = l := by
  induction l with
  | nil => rfl
  | cons a as ih =>
      have ha : ¬ a.id = cid := h a (List.mem_cons_self a as)
      have has : ∀ m ∈ as, m.id ≠ cid := fun m hm => h m (List.mem_cons_of_mem a hm)
      simp [ha, ih has]

/-- C2: from a state with no open agent message, processing
`TextDelta "A"`, `TextDelta "B"`, `TurnComplete` appends exactly one new
agent message with final content `"AB"`: the first delta creates the
message and sets `typing = true`, the second appends to the same message,
and `TurnComplete` resets the current-message pointer and clears `typing`
without creating another message.  (`hfresh` is the fresh-id-supply
invariant: every existing message id is below `nextId`.) -/
theorem c2_two_deltas_one_message (s : ClientState)
    (hopen : s.currentMessageId = none)
    (hfresh : ∀ m ∈ s.messages, m.id < s.nextId) :
    let s1 := onmessage (some (textDeltaData "A")) s
    let s2 := onmessage (some (textDeltaData "B")) s1
    let s3 := onmessage (some turnCompleteData) s2
    s1.messages = s.messages ++ [{ id := s.nextId, content := "A", sender := Sender.ai }] ∧
    s1.isTyping = true ∧
    s1.currentMessageId = some s.nextId ∧
    s2.messages = s.messages ++ [{ id := s.nextId, content := "AB", sender := Sender.ai }] ∧
    s2.isTyping = true ∧
    s2.currentMessageId = some s.nextId ∧
    s3.messages = s.messages ++ [{ id := s.nextId, content := "AB", sender := Sender.ai }] ∧
    s3.isTyping = false ∧
    s3.currentMessageId = none := by
  have e1 : onmessage (some (textDeltaData "A")) s =
      { s with
        isTyping := true
        currentMessageId := some s.nextId
        messages := s.messages ++ [{ id := s.nextId, content := "A", sender := Sender.ai }]
        nextId := s.nextId + 1 } := by
    simp [onmessage, handleServerData, audioStep, textStep, textDeltaData, hopen]
  have hne : ∀ m ∈ s.messages, m.id ≠ s.nextId := fun m hm => Nat.ne_of_lt (hfresh m hm)
  have e2 : onmessage (some (textDeltaData "B")) (onmessage (some (textDeltaData "A")) s) =
      { s with
        isTyping := true
        currentMessageId := some s.nextId
        messages := s.messages ++ [{ id := s.nextId, content := "AB", sender := Sender.ai }]
        nextId := s.nextId + 1 } := by
    rw [e1]
    simp only [onmessage, handleServerData, audioStep, textStep, textDeltaData]
    simp [textStep, List.map_append, map_appendContent_of_ne s.messages s.nextId "B" hne]
  have e3 : onmessage (some turnCompleteData)
        (onmessage (some (textDeltaData "B")) (onmessage (some (textDeltaData "A")) s)) =
      { s with
        isTyping := false
        currentMessageId := none
        messages := s.messages ++ [{ id := s.nextId, content := "AB", sender := Sender.ai }]
        nextId := s.nextId + 1 } := by
    rw [e2]
    simp [onmessage, handleServerData, turnCompleteData]
  refine ⟨?_, ?_, ?_, ?_, ?_, ?_, ?_, ?_, ?_⟩
  · rw [e1]
  · rw [e1]
  · rw [e1]
  · rw [e2]
  · rw [e2]
  · rw [e2]
  · rw [e3]
  · rw [e3]
  · rw [e3]

theorem c2_two_deltas_one_message_witness :
    let s1 := onmessage (some (textDeltaData "A")) initialState
    let s2 := onmessage (some (textDeltaData "B")) s1
    let s3 := onmessage (some turnCompleteData) s2
    s1.messages = initialState.messages
        ++ [{ id := initialState.nextId, content := "A", sender := Sender.ai }] ∧
    s1.isTyping = true ∧
    s1.currentMessageId = some initialState.nextId ∧
    s2.messages = initialState.messages
        ++ [{ id := initialState.nextId, content := "AB", sender := Sender.ai }] ∧
    s2.isTyping = true ∧
    s2.currentMessageId = some initialState.nextId ∧
    s3.messages = initialState.messages
        ++ [{ id := initialState.nextId, content := "AB", sender := Sender.ai }] ∧
    s3.isTyping = false ∧
    s3.currentMessageId = none :=
  c2_two_deltas_one_message initialState rfl (by decide)

/-- C3 counterexample: at `c3State`, processing `Interrupted` does empty
the playback queue and clear `typing`, but it does **not** reset the
current-message pointer (only `TurnComplete` does), so the claimed
conjunction fails. -/
theorem c3_counterexample :
    ¬ ((onmessage (some interruptedData) c3State).playbackQueue = [] ∧
       (onmessage (some interruptedData) c3State).isTyping = false ∧
       (onmessage (some interruptedData) c3State).currentMessageId = none) := by decide

/-- C3 (amended): for every state with a live playback pipeline and any
prior queue contents, processing `Interrupted` leaves the playback queue
empty and sets `typing = false`, but leaves the current-message pointer
exactly as it was. -/
theorem c3_interrupted_empties_queue (s : ClientState)
    (hp : s.playerHandle.isSome = true) :
    (onmessage (some interruptedData) s).playbackQueue = [] ∧
    (onmessage (some interruptedData) s).isTyping = false ∧
    (onmessage (some interruptedData) s).currentMessageId = s.currentMessageId := by
  simp [onmessage, handleServerData, interruptedData, hp]

theorem c3_interrupted_empties_queue_witness :
    (onmessage (some interruptedData) c3State).playbackQueue = [] ∧
    (onmessage (some interruptedData) c3State).isTyping = false ∧
    (onmessage (some interruptedData) c3State).currentMessageId = c3State.currentMessageId :=
  c3_interrupted_empties_queue c3State (by decide)

/-- C10: an inbound event whose payload is not valid JSON (`none`), or
parses to none of the recognized shapes, or is a recognized audio chunk
whose base64 payload does not decode, never throws out of the handler:
the event is dropped with the state — in particular the open stream —
unchanged, and processing of any subsequent events is unaffected. -/
theorem c10_malformed_event_dropped (s : ClientState) (d : ServerData) (t : String)
    (evs : List (Option ServerData))
    (h1 : d.turn_complete ≠ some true) (h2 : d.interrupted ≠ some true)
    (h3 : d.mime_type ≠ some "text/plain") (h4 : d.mime_type ≠ some "audio/pcm")
    (hb64 : base64ToArray t.toList = none) :
    onmessage none s = s ∧
    onmessage (some d) s = s ∧
    onmessage (some (audioChunkData t)) s = s ∧
    processEvents (none :: evs) s = processEvents evs s ∧
    processEvents (some d :: evs) s = processEvents evs s ∧
    processEvents (some (audioChunkData t) :: evs) s = processEvents evs s := by
  have ed : onmessage (some d) s = s := by
    cases hd : d.data with
    | none => simp [onmessage, handleServerData, audioStep, textStep, h1, h2, hd]
    | some t' => simp [onmessage, handleServerData, audioStep, textStep, h1, h2, h3, h4, hd]
  have hb : base64ToArray t.data = none := hb64
  have ea : onmessage (some (audioChunkData t)) s = s := by
    by_cases hc : t ≠ "" ∧ s.playerHandle.isSome ∧ s.isMuted = false
    · simp [onmessage, handleServerData, audioStep, audioChunkData, hc.1, hc.2.1, hc.2.2,
        hb64, hb]
    · simp only [onmessage, handleServerData, audioStep, audioChunkData]
      simp [hc, textStep]
  refine ⟨rfl, ed, ea, rfl, ?_, ?_⟩ <;>
    simp only [processEvents, List.foldl_cons, ed, ea]

theorem c10_malformed_event_dropped_witness :
    onmessage none initialState = initialState ∧
    onmessage (some c10Data) initialState = initialState ∧
    onmessage (some (audioChunkData "?A==")) initialState = initialState ∧
    processEvents (none :: [some turnCompleteData]) initialState
      = processEvents [some turnCompleteData] initialState ∧
    processEvents (some c10Data :: [some turnCompleteData]) initialState
      = processEvents [some turnCompleteData] initialState ∧
    processEvents (some (audioChunkData "?A==") :: [some turnCompleteData]) initialState
      = processEvents [some turnCompleteData] initialState :=
  c10_malformed_event_dropped initialState c10Data "?A==" [some turnCompleteData]
    (by decide) (by decide) (by decide) (by decide) (by decide)

/-- What `sendBufferedAudio` actually checks before POSTing: every record
it appends to the send log was sent while connected, with a non-empty
payload, and with whatever recording flag and mode the state happened to
have — neither is consulted. -/
theorem sendBufferedAudio_sends (s : ClientState) :
    ∀ r ∈ (sendBufferedAudio s).sentAudio.drop s.sentAudio.length,
      r.connectedAtSend = true ∧ r.bytes ≠ [] ∧ r.recordingAtSend = s.isRecording ∧
      r.modeAudioAtSend = decide (s.eventSource = some true) := by
  intro r hr
  simp only [sendBufferedAudio] at hr
  split at hr
  · rw [List.drop_length] at hr
    simp at hr
  · split at hr
    · rename_i hcond
      rw [List.drop_left] at hr
      simp only [List.mem_singleton] at hr
      subst hr
      exact ⟨hcond.1, hcond.2, rfl, rfl⟩
    · rw [List.drop_length] at hr
      simp at hr

/-- Lemma: `stopVoiceConversation` changes the send log exactly as the flush of
the flag-cleared state does (the skipped flush on an empty buffer and
`sendBufferedAudio` on an empty buffer agree). -/
theorem stopVoice_sentAudio (healthy : Bool) (s : ClientState) :
    (stopVoiceConversation healthy s).sentAudio
      = (sendBufferedAudio { s with
          isRecording := false, isVoiceEnabled := false, bufferTimer := false }).sentAudio := by
  by_cases hb : s.audioBuffer = [] <;>
    cases healthy <;>
      simp [stopVoiceConversation, connectToServer, sendBufferedAudio, hb]

/-- C1 counterexample: stopping the voice conversation at `c1State`
flushes the pending chunk and sends it, and at the moment of that send the
recording flag is already `false` — so it is not the case that every audio
frame is sent while `recording = true`. -/
theorem c1_counterexample :
    ¬ (∀ r ∈ (stopVoiceConversation true c1State).sentAudio,
        r.recordingAtSend = true ∧ r.modeAudioAtSend = true) := by decide

/-- C1 (amended): for every flush of the pending audio buffer, an audio
OutboundFrame is sent only when the session is connected and the combined
buffer is non-empty; the recording flag is not consulted at send time — a
timer flush sends with the state's current recording flag, and the flush
performed during stop sends after recording has been set to `false`. -/
theorem c1_flush_send_conditions (s : ClientState) (healthy : Bool) :
    (∀ r ∈ (sendBufferedAudio s).sentAudio.drop s.sentAudio.length,
        r.connectedAtSend = true ∧ r.bytes ≠ [] ∧ r.recordingAtSend = s.isRecording ∧
        r.modeAudioAtSend = decide (s.eventSource = some true)) ∧
    (∀ r ∈ (stopVoiceConversation healthy s).sentAudio.drop s.sentAudio.length,
        r.connectedAtSend = true ∧ r.bytes ≠ [] ∧ r.recordingAtSend = false) := by
  refine ⟨sendBufferedAudio_sends s, ?_⟩
  intro r hr
  rw [stopVoice_sentAudio] at hr
  have h := sendBufferedAudio_sends
    { s with isRecording := false, isVoiceEnabled := false, bufferTimer := false } r hr
  exact ⟨h.1, h.2.1, h.2.2.1⟩

theorem c1_flush_send_conditions_witness :
    (stopVoiceConversation true c1State).sentAudio ≠ [] ∧
    (∀ r ∈ (stopVoiceConversation true c1State).sentAudio.drop c1State.sentAudio.length,
        r.connectedAtSend = true ∧ r.bytes ≠ [] ∧ r.recordingAtSend = false) :=
  ⟨by decide, (c1_flush_send_conditions c1State true).2⟩

/-- C7 counterexample: at `c7State` the session is already in audio mode,
yet requesting voice start again replaces both pipeline handles and
performs another reconnect — neither the claimed pipeline no-op nor the
claimed "reconnect only if the mode differs" holds. -/
theorem c7_counterexample :
    c7State.eventSource = some true ∧
    ¬ ((startVoiceConversation true true c7State).playerHandle = c7State.playerHandle ∧
       (startVoiceConversation true true c7State).recorderHandle = c7State.recorderHandle ∧
       (startVoiceConversation true true c7State).connects = c7State.connects) := by decide

/-- C7 (amended): a successful voice start is never a no-op: it always
builds a fresh playback and a fresh capture pipeline (the stored handles
are replaced by the two next fresh handles) and always performs exactly
one reconnect in audio mode, whether or not the session is already in
audio mode. -/
theorem c7_start_always_rebuilds (s : ClientState) :
    (startVoiceConversation true true s).playerHandle = some s.nextHandle ∧
    (startVoiceConversation true true s).recorderHandle = some (s.nextHandle + 1) ∧
    (startVoiceConversation true true s).nextHandle = s.nextHandle + 2 ∧
    (startVoiceConversation true true s).connects = s.connects ++ [true] ∧
    (startVoiceConversation true true s).eventSource = some true ∧
    (startVoiceConversation true true s).isVoiceEnabled = true ∧
    (startVoiceConversation true true s).isRecording = true := by
  simp [startVoiceConversation, connectToServer]

set_option maxRecDepth 4000 in
/-- C8 counterexample: stopping voice at `c8State` — where no capture
pipeline was ever started — still appends the voice-stopped notice, so the
transcript is not left unchanged. -/
theorem c8_counterexample :
    ¬ ((stopVoiceConversation true c8State).messages = c8State.messages) := by decide

/-- C8 (amended): calling stop when voice was never started does not throw
and leaves the whole audio-pipeline state (flags, pending buffer, timer,
mic, handles, queue) and the connected/muted/typing flags, current-message
pointer, input value and send log unchanged — but it still closes and
reopens the connection in text mode and appends the voice-stopped notice
to the transcript. -/
theorem c8_stop_never_started (s : ClientState)
    (hrec : s.isRecording = false) (hvoice : s.isVoiceEnabled = false)
    (hbuf : s.audioBuffer = []) (htimer : s.bufferTimer = false)
    (hmic : s.micStream = false) (hplayer : s.playerHandle = none)
    (hrecorder : s.recorderHandle = none) (hqueue : s.playbackQueue = []) :
    (stopVoiceConversation true s).isRecording = s.isRecording ∧
    (stopVoiceConversation true s).isVoiceEnabled = s.isVoiceEnabled ∧
    (stopVoiceConversation true s).audioBuffer = s.audioBuffer ∧
    (stopVoiceConversation true s).bufferTimer = s.bufferTimer ∧
    (stopVoiceConversation true s).micStream = s.micStream ∧
    (stopVoiceConversation true s).playerHandle = s.playerHandle ∧
    (stopVoiceConversation true s).recorderHandle = s.recorderHandle ∧
    (stopVoiceConversation true s).playbackQueue = s.playbackQueue ∧
    (stopVoiceConversation true s).isConnected = s.isConnected ∧
    (stopVoiceConversation true s).isMuted = s.isMuted ∧
    (stopVoiceConversation true s).isTyping = s.isTyping ∧
    (stopVoiceConversation true s).currentMessageId = s.currentMessageId ∧
    (stopVoiceConversation true s).inputValue = s.inputValue ∧
    (stopVoiceConversation true s).sentAudio = s.sentAudio ∧
    (stopVoiceConversation true s).eventSource = some false ∧
    (stopVoiceConversation true s).connects = s.connects ++ [false] ∧
    (stopVoiceConversation true s).messages
      = s.messages ++ [{ id := s.nextId, content := voiceStopText, sender := Sender.ai }] := by
  simp [stopVoiceConversation, connectToServer, hrec, hvoice, hbuf, htimer, hmic, hplayer,
    hrecorder, hqueue]

theorem c8_stop_never_started_witness :
    (stopVoiceConversation true c8State).isRecording = c8State.isRecording ∧
    (stopVoiceConversation true c8State).isVoiceEnabled = c8State.isVoiceEnabled ∧
    (stopVoiceConversation true c8State).audioBuffer = c8State.audioBuffer ∧
    (stopVoiceConversation true c8State).bufferTimer = c8State.bufferTimer ∧
    (stopVoiceConversation true c8State).micStream = c8State.micStream ∧
    (stopVoiceConversation true c8State).playerHandle = c8State.playerHandle ∧
    (stopVoiceConversation true c8State).recorderHandle = c8State.recorderHandle ∧
    (stopVoiceConversation true c8State).playbackQueue = c8State.playbackQueue ∧
    (stopVoiceConversation true c8State).isConnected = c8State.isConnected ∧
    (stopVoiceConversation true c8State).isMuted = c8State.isMuted ∧
    (stopVoiceConversation true c8State).isTyping = c8State.isTyping ∧
    (stopVoiceConversation true c8State).currentMessageId = c8State.currentMessageId ∧
    (stopVoiceConversation true c8State).inputValue = c8State.inputValue ∧
    (stopVoiceConversation true c8State).sentAudio = c8State.sentAudio ∧
    (stopVoiceConversation true c8State).eventSource = some false ∧
    (stopVoiceConversation true c8State).connects = c8State.connects ++ [false] ∧
    (stopVoiceConversation true c8State).messages
      = c8State.messages
        ++ [{ id := c8State.nextId, content := voiceStopText, sender := Sender.ai }] :=
  c8_stop_never_started c8State rfl rfl rfl rfl rfl rfl rfl rfl

/-- C9: sending a text message while connected appends the user message to
the transcript whatever the POST outcome turns out to be (optimistic
update), and a subsequent connect whose liveness check fails
(`ServerUnreachable`) only appends the failure notice — it removes nothing,
so the user message is still in the transcript. -/
theorem c9_optimistic_send_survives (s : ClientState) (ok mode : Bool)
    (hc : s.isConnected = true) (hin : strTrim s.inputValue ≠ "") :
    (sendMessage ok s).messages
        = s.messages ++ [{ id := s.nextId, content := s.inputValue, sender := Sender.user }]
          ++ (if ok then []
              else [{ id := s.nextId + 1, content := sendFailText, sender := Sender.ai }]) ∧
    ({ id := s.nextId, content := s.inputValue, sender := Sender.user } : Message)
        ∈ (sendMessage ok s).messages ∧
    (connectToServer false mode (sendMessage ok s)).messages
        = (sendMessage ok s).messages
          ++ [{ id := (sendMessage ok s).nextId, content := connectFailText, sender := Sender.ai }] ∧
    ({ id := s.nextId, content := s.inputValue, sender := Sender.user } : Message)
        ∈ (connectToServer false mode (sendMessage ok s)).messages := by
  have hg : ¬ (strTrim s.inputValue = "" ∨ s.isConnected = false) := by
    simp [hin, hc]
  cases ok with
  | true => simp [sendMessage, connectToServer, hg]
  | false => simp [sendMessage, connectToServer, hg]

theorem c9_optimistic_send_survives_witness :
    (sendMessage false c9State).messages
        = c9State.messages
          ++ [{ id := c9State.nextId, content := c9State.inputValue, sender := Sender.user }]
          ++ (if false then []
              else [{ id := c9State.nextId + 1, content := sendFailText, sender := Sender.ai }]) ∧
    ({ id := c9State.nextId, content := c9State.inputValue, sender := Sender.user } : Message)
        ∈ (sendMessage false c9State).messages ∧
    (connectToServer false false (sendMessage false c9State)).messages
        = (sendMessage false c9State).messages
          ++ [{ id := (sendMessage false c9State).nextId, content := connectFailText,
                sender := Sender.ai }] ∧
    ({ id := c9State.nextId, content := c9State.inputValue, sender := Sender.user } : Message)
        ∈ (connectToServer false false (sendMessage false c9State)).messages :=
  c9_optimistic_send_survives c9State false false rfl (by decide)
